import Mathlib

/-!
Shallow embedding of the spam-filter scripts `kmkh_1.0.py` and `kmkh_1.1.py`:
the fixed toy dataset, the TF-IDF vectorizer and logistic-regression
classifier contracts, the seeded train/test split, the training pipeline,
the joblib artifact store, and the two serving endpoints.

The scripts call scikit-learn, pandas and joblib, whose code is not part of
the repository; those library functions are modelled here, faithful to their
documented behaviour and to the contracts the specification pins down.
Numeric features are rationals; the logistic link is real-valued.
-/

namespace SpamFilter

/-- Python list repetition `l * n`: `n` copies of `l` concatenated. -/
def pyListMul (l : List α) (n : ℕ) : List α := (List.replicate n l).flatten

/-- The five spam example texts, repeated 60 times (source lines 15-21 of
`kmkh_1.0.py`, identically lines 13-19 of `kmkh_1.1.py`). -/
def spam_texts : List String :=
  pyListMul
    ["Congratulations! You won a free lottery ticket.",
     "Claim your free prize now!!!",
     "You have been selected for a cash reward.",
     "Win big money today, click here!",
     "Urgent! Update your bank details immediately."] 60

/-- The five ham example texts, repeated 60 times (source lines 23-29 of
`kmkh_1.0.py`). -/
def ham_texts : List String :=
  pyListMul
    ["Hi John, are we still meeting tomorrow?",
     "Please find the attached project report.",
     "Let\x27s have lunch at 1pm.",
     "Your order has been shipped and will arrive soon.",
     "Thanks for your help yesterday."] 60

/-- Column `data["text"]` of the DataFrame: spam texts then ham texts. -/
def data_text : List String := spam_texts ++ ham_texts

/-- Column `data["label"]` of the DataFrame: `[1] * 300 + [0] * 300`. -/
def data_label : List ℕ := pyListMul [1] 300 ++ pyListMul [0] 300

/-- Tokenization character normalization: keep letters and digits
(case-folded), map every other character to a space. Mirrors the library
vectorizer's lowercase word tokenization; the spec leaves the exact rule as
an external, swappable policy. -/
def normChar (c : Char) : Char := if c.isAlphanum then c.toLower else ' '

/-- Splits a character list into maximal space-free words (accumulator holds
the current word reversed). -/
def wordsAux : List Char → List Char → List (List Char)
  | [], acc => if acc.isEmpty then [] else [acc.reverse]
  | c :: cs, acc =>
    if c = ' ' then
      if acc.isEmpty then wordsAux cs [] else acc.reverse :: wordsAux cs []
    else wordsAux cs (c :: acc)

/-- Tokenize a document: case-fold, split at non-alphanumeric characters,
keep tokens of at least two characters (the library's default token rule). -/
def tokenize (s : String) : List String :=
  ((wordsAux (s.data.map normChar) []).map String.mk).filter (fun t => 2 ≤ t.length)

/-- Document frequency of token `t` in a corpus. -/
def docFreq (t : String) (docs : List String) : ℕ :=
  (docs.filter (fun d => decide (t ∈ tokenize d))).length

/-- Modelled from the spec: the library computes IDF as a deterministic
logarithmic function of the document frequency (library code, not in the
repository). The spec pins only "a deterministic function of document
frequency across the fitting corpus", so a rational-valued stand-in with the
same signature is used; no claim depends on the particular values. -/
def idfOf (nDocs df : ℕ) : ℚ := 1 + (nDocs + 1 : ℚ) / (df + 1 : ℚ)

/-- A fitted vectorizer: a vocabulary (distinct tokens, index = position)
and one IDF weight per vocabulary entry. -/
structure FittedVectorizer where
  vocab : List String
  idf : List ℚ
deriving DecidableEq

/-- Training-time errors of the pipeline (the spec's taxonomy names for the
ValueErrors the library raises on unusable input data). -/
inductive PipelineError where
  | emptyCorpus
  | degenerateDataset
deriving DecidableEq

/-- The distinct tokens observed across a corpus, in order of occurrence. -/
def buildVocab (docs : List String) : List String := ((docs.map tokenize).flatten).dedup

/-- Embedding of `TfidfVectorizer().fit`: build the vocabulary from all
tokens of the corpus and compute one IDF weight per entry; fails with the
empty-vocabulary error when the corpus is empty or yields no token. -/
def tfidfFit (docs : List String) : Except PipelineError FittedVectorizer :=
  if buildVocab docs = [] then .error .emptyCorpus
  else .ok ⟨buildVocab docs, (buildVocab docs).map (fun t => idfOf docs.length (docFreq t docs))⟩

/-- Transform a token list into the feature vector over the fitted
vocabulary: entry i = term frequency of vocabulary token i times its IDF.
Tokens outside the vocabulary contribute to no entry (silent drop). -/
def transformTokens (fv : FittedVectorizer) (toks : List String) : List ℚ :=
  fv.vocab.enum.map (fun p => (toks.count p.2 : ℚ) * fv.idf.getD p.1 0)

/-- Embedding of `vectorizer.transform` on a single document. -/
def transformOne (fv : FittedVectorizer) (doc : String) : List ℚ :=
  transformTokens fv (tokenize doc)

/-- A fitted classifier: one weight per vocabulary entry plus a bias. -/
structure FittedClassifier where
  weights : List ℚ
  bias : ℚ
deriving DecidableEq

/-- Dot product of two rational vectors (missing entries count as zero). -/
def dotQ : List ℚ → List ℚ → ℚ
  | [], _ => 0
  | _, [] => 0
  | u :: us, v :: vs => u * v + dotQ us vs

/-- Decision function of the fitted linear classifier: weights dot features
plus bias. -/
def decisionFn (clf : FittedClassifier) (x : List ℚ) : ℚ := dotQ clf.weights x + clf.bias

/-- Embedding of `clf.predict` on one feature vector: class 1 (spam) exactly
when the decision function is positive, i.e. when the logistic probability
exceeds one half. -/
def predictOne (clf : FittedClassifier) (x : List ℚ) : ℕ :=
  if 0 < decisionFn clf x then 1 else 0

/-- Embedding of `clf.predict_proba` for the positive class: the logistic
link applied to the decision function. -/
noncomputable def predictScoreOne (clf : FittedClassifier) (x : List ℚ) : ℝ :=
  1 / (1 + Real.exp (-((decisionFn clf x : ℚ) : ℝ)))

/-- Hyperparameters of `LogisticRegression()` (regularization strength and
iteration budget); the script uses the defaults. -/
structure ClfHyper where
  regC : ℚ
  maxIter : ℕ
deriving DecidableEq

/-- Componentwise sum of two rational vectors (truncating). -/
def addVec (u v : List ℚ) : List ℚ := List.zipWith (· + ·) u v

/-- Scale a rational vector. -/
def scaleVec (a : ℚ) (v : List ℚ) : List ℚ := v.map (fun x => a * x)

/-- Modelled from the spec: `LogisticRegression().fit` minimizes a convex
log-loss by a deterministic iterative optimizer (library code, not in the
repository). The spec pins only that fitting is deterministic given fixed
seed and hyperparameters; the weights here are a deterministic closed-form
stand-in (signed sum of feature rows), and no claim depends on their
numeric values. -/
def fitWeights (X : List (List ℚ)) (y : List ℕ) : List ℚ :=
  (X.zip y).foldl
    (fun acc p => addVec acc (scaleVec (if p.2 = 1 then 1 else -1) p.1))
    (List.replicate (X.headD []).length 0)

/-- Embedding of `clf.fit`: fails with the single-class error when the label
column holds fewer than two distinct values, otherwise produces fitted
weights deterministically. -/
def clfFit (_hp : ClfHyper) (X : List (List ℚ)) (y : List ℕ) : Except PipelineError FittedClassifier :=
  if y.dedup.length < 2 then .error .degenerateDataset else .ok ⟨fitWeights X y, 0⟩

/-- Modelled from the spec: the seeded pseudo-random index permutation used
by the split (library code, not in the repository). The spec requires only
that it is a deterministic function of the seed, so a deterministic rotation
of the index range is used. -/
def permIdx (seed n : ℕ) : List ℕ := (List.range n).rotate (seed % max 1 n)

/-- The four return values of `train_test_split`. -/
structure SplitResult where
  XTrain : List String
  XTest : List String
  yTrain : List ℕ
  yTest : List ℕ
deriving DecidableEq

/-- Number of test rows for `test_size=0.2`: the library takes the ceiling
of a fifth of the row count. -/
def nTestOf (n : ℕ) : ℕ := (n + 4) / 5

/-- Embedding of `train_test_split(texts, labels, test_size=0.2,
random_state=rs)`: permute the row indices by the seed (the ambient
entropy stands for the global generator and is consulted only when no
`random_state` is passed), assign the first fifth of the permuted rows to
the test partition and the rest to the train partition. -/
def train_test_split (texts : List String) (labels : List ℕ)
    (randomState : Option ℕ) (entropy : ℕ) : SplitResult :=
  let n := texts.length
  let perm := permIdx (randomState.getD entropy) n
  ⟨(perm.drop (nTestOf n)).map (fun i => texts.getD i ("")),
   (perm.take (nTestOf n)).map (fun i => texts.getD i ("")),
   (perm.drop (nTestOf n)).map (fun i => labels.getD i 0),
   (perm.take (nTestOf n)).map (fun i => labels.getD i 0)⟩

/-- Everything the training section of the script produces: the split, the
two fitted artifacts, the transformed partitions and the test predictions
used by the diagnostic report. -/
structure TrainResult where
  split : SplitResult
  fv : FittedVectorizer
  clf : FittedClassifier
  XTrainT : List (List ℚ)
  XTestT : List (List ℚ)
  yPred : List ℕ
deriving DecidableEq

/-- Embedding of the training section (source lines 39-51 of `kmkh_1.0.py`):
split with a fixed seed, fit the vectorizer on the train partition, transform
both partitions with it, fit the classifier on the transformed train data,
and predict the test partition for the report. -/
def trainPipeline (seed : ℕ) (hp : ClfHyper) (texts : List String) (labels : List ℕ)
    (entropy : ℕ) : Except PipelineError TrainResult :=
  match tfidfFit (train_test_split texts labels (some seed) entropy).XTrain with
  | .error e => .error e
  | .ok fv =>
    match clfFit hp ((train_test_split texts labels (some seed) entropy).XTrain.map (transformOne fv))
        (train_test_split texts labels (some seed) entropy).yTrain with
    | .error e => .error e
    | .ok c =>
      .ok ⟨train_test_split texts labels (some seed) entropy, fv, c,
        (train_test_split texts labels (some seed) entropy).XTrain.map (transformOne fv),
        (train_test_split texts labels (some seed) entropy).XTest.map (transformOne fv),
        ((train_test_split texts labels (some seed) entropy).XTest.map (transformOne fv)).map (predictOne c)⟩

/-- An artifact of either kind, as pickled by the script. -/
inductive Artifact where
  | vec (fv : FittedVectorizer)
  | clfA (c : FittedClassifier)
deriving DecidableEq

/-- The artifact store: pickle files keyed by name. -/
abbrev Store := List (String × Artifact)

/-- Serving-time loading failures: `joblib.load` on an absent file raises
FileNotFoundError; a wrongly-typed pickle surfaces later as an attribute
error. Neither is the specification's `ModelNotReadyError`, which the code
does not define. -/
inductive StartupError where
  | fileNotFound (name : String)
  | typeConfusion (name : String)
deriving DecidableEq

/-- Embedding of `joblib.dump(artifact, name)`. -/
def joblibDump (name : String) (a : Artifact) (st : Store) : Store := (name, a) :: st

/-- Lookup of the most recently dumped artifact under a name. -/
def storeLookup : Store → String → Option Artifact
  | [], _ => none
  | (k, v) :: rest, name => if k = name then some v else storeLookup rest name

/-- Embedding of `joblib.load(name)`: the file's content, or a
FileNotFoundError when the name is absent. -/
def joblibLoad (name : String) (st : Store) : Except StartupError Artifact :=
  match storeLookup st name with
  | some a => .ok a
  | none => .error (.fileNotFound name)

/-- The serving state after module import: the two globals the endpoints
read (source lines 64-65 of `kmkh_1.0.py`, lines 53-54 of `kmkh_1.1.py`). -/
structure ServiceState where
  clf : FittedClassifier
  vectorizer : FittedVectorizer
deriving DecidableEq

/-- Embedding of the serving section's module-level setup: load
`spam_model.pkl` then `tfidf_vectorizer.pkl` unconditionally; a missing
file propagates the loader's error and aborts the import (process crash),
so no endpoint ever runs without both artifacts in place. -/
def startServing (st : Store) : Except StartupError ServiceState :=
  match joblibLoad ("spam_model.pkl") st with
  | .error e => .error e
  | .ok (.clfA c) =>
    match joblibLoad ("tfidf_vectorizer.pkl") st with
    | .error e => .error e
    | .ok (.vec v) => .ok ⟨c, v⟩
    | .ok _ => .error (.typeConfusion ("tfidf_vectorizer.pkl"))
  | .ok _ => .error (.typeConfusion ("spam_model.pkl"))

/-- Response shape of the `kmkh_1.0.py` endpoint: `{"prediction": ...}`. -/
structure PredictResponse where
  prediction : String
deriving DecidableEq

/-- Embedding of the `kmkh_1.0.py` endpoint (source lines 67-71): vectorize
the email, classify, and answer "spam" for class 1 and "ham" otherwise. -/
def predictApp (svc : ServiceState) (email : String) : PredictResponse :=
  if predictOne svc.clf (transformOne svc.vectorizer email) = 1
  then ⟨"spam"⟩ else ⟨"ham"⟩

/-- Response shape of the `kmkh_1.1.py` endpoint: `{"header": ...}`. -/
structure ZimbraResponse where
  header : String
deriving DecidableEq

/-- Text-level body of the `kmkh_1.1.py` endpoint (source lines 61-68):
vectorize, classify, and answer a Zimbra header line. -/
def zimbraRespond (svc : ServiceState) (emailText : String) : ZimbraResponse :=
  if predictOne svc.clf (transformOne svc.vectorizer emailText) = 1
  then ⟨"X-Spam-ML-Score: yes"⟩ else ⟨"X-Spam-ML-Score: no"⟩

/-- Continuation-byte test for UTF-8 decoding. -/
def contB (b : ℕ) : Bool := decide (128 ≤ b) && decide (b ≤ 191)

/-- First-continuation constraints of three-byte UTF-8 sequences (excluding
overlong encodings and surrogates). -/
def cont3 (b b2 : ℕ) : Bool :=
  if b = 224 then decide (160 ≤ b2) && decide (b2 ≤ 191)
  else if b = 237 then decide (128 ≤ b2) && decide (b2 ≤ 159)
  else contB b2

/-- First-continuation constraints of four-byte UTF-8 sequences. -/
def cont4 (b b2 : ℕ) : Bool :=
  if b = 240 then decide (144 ≤ b2) && decide (b2 ≤ 191)
  else if b = 244 then decide (128 ≤ b2) && decide (b2 ≤ 143)
  else contB b2

/-- Fuel-indexed UTF-8 decoder with the "ignore" error handler: decodable
sequences become characters, undecodable bytes are silently dropped. The
fuel only bounds the recursion; `utf8DecodeIgnore` supplies enough of it. -/
def utf8DecodeAux : ℕ → List ℕ → List Char
  | 0, _ => []
  | _ + 1, [] => []
  | f + 1, b :: bs =>
    if b < 128 then Char.ofNat b :: utf8DecodeAux f bs
    else if 194 ≤ b ∧ b ≤ 223 then
      match bs with
      | b2 :: bs2 =>
        if contB b2 then Char.ofNat ((b - 192) * 64 + (b2 - 128)) :: utf8DecodeAux f bs2
        else utf8DecodeAux f bs
      | [] => []
    else if 224 ≤ b ∧ b ≤ 239 then
      match bs with
      | b2 :: b3 :: bs3 =>
        if cont3 b b2 && contB b3 then
          Char.ofNat ((b - 224) * 4096 + (b2 - 128) * 64 + (b3 - 128)) :: utf8DecodeAux f bs3
        else utf8DecodeAux f bs
      | _ => utf8DecodeAux f bs
    else if 240 ≤ b ∧ b ≤ 244 then
      match bs with
      | b2 :: b3 :: b4 :: bs4 =>
        if cont4 b b2 && contB b3 && contB b4 then
          Char.ofNat ((b - 240) * 262144 + (b2 - 128) * 4096 + (b3 - 128) * 64 + (b4 - 128)) :: utf8DecodeAux f bs4
        else utf8DecodeAux f bs
      | _ => utf8DecodeAux f bs
    else utf8DecodeAux f bs

/-- Embedding of `bytes.decode("utf-8", errors="ignore")`: every byte of an
undecodable sequence is dropped, never reported. -/
def utf8DecodeIgnore (l : List ℕ) : List Char := utf8DecodeAux l.length l

/-- Embedding of the `kmkh_1.1.py` endpoint (source lines 56-68): read the
raw body bytes, decode them with errors ignored, and respond with the
Zimbra header for the predicted class. -/
def predictZimbra (svc : ServiceState) (body : List ℕ) : ZimbraResponse :=
  zimbraRespond svc (String.mk (utf8DecodeIgnore body))

/-- A concrete loaded service used to evaluate the endpoints on explicit
inputs: one-token vocabulary, zero weight and bias. -/
def svc0 : ServiceState := ⟨⟨[0], 0⟩, ⟨["aa"], [1]⟩⟩

/-- Logistic link threshold: the logistic probability exceeds one half
exactly when the decision value is positive. -/
theorem sigmoid_gt_half (z : ℝ) : (1 : ℝ) / 2 < 1 / (1 + Real.exp (-z)) ↔ 0 < z := by
  have he : 0 < Real.exp (-z) := Real.exp_pos _
  have hp : (0 : ℝ) < 1 + Real.exp (-z) := by linarith
  rw [div_lt_div_iff₀ (by norm_num) hp]
  constructor
  · intro h
    have h1 : Real.exp (-z) < 1 := by nlinarith
    have h3 : Real.exp (-z) < Real.exp 0 := by simpa [Real.exp_zero] using h1
    have h2 : (-z) < 0 := Real.exp_lt_exp.mp h3
    linarith
  · intro h
    have h3 : Real.exp (-z) < Real.exp 0 := Real.exp_lt_exp.mpr (by linarith)
    have h1 : Real.exp (-z) < 1 := by simpa [Real.exp_zero] using h3
    nlinarith

/-- The classifier's logistic score exceeds one half exactly when its
decision function is positive. -/
theorem predictScore_gt_half_iff (clf : FittedClassifier) (x : List ℚ) :
    (1 : ℝ) / 2 < predictScoreOne clf x ↔ 0 < decisionFn clf x := by
  unfold predictScoreOne
  rw [sigmoid_gt_half]
  exact Rat.cast_pos

/-- The second component of an enumerated entry is a list element. -/
theorem snd_mem_of_mem_enumFrom {α : Type} :
    ∀ (l : List α) (n : ℕ) (p : ℕ × α), p ∈ l.enumFrom n → p.2 ∈ l := by
  intro l
  induction l with
  | nil => intro n p h; cases h
  | cons a bs ih =>
    intro n p h
    rw [List.enumFrom] at h
    rcases List.mem_cons.mp h with rfl | h2
    · simp
    · exact List.mem_cons_of_mem _ (ih (n + 1) p h2)

/-- Counting a kept element is unchanged by filtering. -/
theorem count_filter_of_pos {α : Type} [DecidableEq α] (p : α → Bool) (a : α)
    (hp : p a = true) : ∀ l : List α, (l.filter p).count a = l.count a := by
  intro l
  induction l with
  | nil => rfl
  | cons b bs ih =>
    by_cases hb : p b = true
    · simp [List.filter_cons, hb, List.count_cons, ih]
    · have hab : a ≠ b := by
        intro hba
        subst hba
        exact hb hp
      simp [List.filter_cons, hb, List.count_cons, ih, hab]

/-- Deduplicating a nonempty constant list leaves the single value. -/
theorem dedup_of_all_eq {α : Type} [DecidableEq α] (v : α) :
    ∀ y : List α, v ∈ y → (∀ l ∈ y, l = v) → y.dedup = [v] := by
  intro y
  induction y with
  | nil => intro h; cases h
  | cons a bs ih =>
    intro _ hall
    have ha : a = v := hall a (by simp)
    subst ha
    cases bs with
    | nil => simp
    | cons b bs2 =>
      have hb : b = a := hall b (by simp)
      have hmem : a ∈ b :: bs2 := by simp [hb]
      have hall2 : ∀ l ∈ b :: bs2, l = a := fun l hl => hall l (by simp [hl])
      rw [List.dedup_cons_of_mem hmem, ih hmem hall2]

/-- A successful vectorizer fit carries exactly the corpus vocabulary. -/
theorem tfidfFit_ok_vocab {docs : List String} {fv : FittedVectorizer}
    (h : tfidfFit docs = .ok fv) : fv.vocab = buildVocab docs := by
  unfold tfidfFit at h
  by_cases hv : buildVocab docs = []
  · simp [hv] at h
  · simp only [hv, if_false, ite_false] at h
    injection h with h2
    rw [← h2]

/-- Prepending the byte 255, which is valid in no UTF-8 sequence, leaves the
ignore-mode decoding unchanged: the byte is silently dropped. -/
theorem utf8_drop_255 (body : List ℕ) :
    utf8DecodeIgnore (255 :: body) = utf8DecodeIgnore body := by
  show utf8DecodeAux (body.length + 1) (255 :: body) = utf8DecodeAux body.length body
  simp [utf8DecodeAux]

/-- C1 counterexample: the `kmkh_1.1.py` inference endpoint, on an accepted
text ("hi", bytes 104 and 105), answers a structured result whose only field
is the header string "X-Spam-ML-Score: no" — not a label equal to "spam" or
to "ham" — refuting the claim as stated over the repository's endpoints. -/
theorem claim_C1_counterexample :
    (predictZimbra svc0 [104, 105]).header = ("X-Spam-ML-Score: no") ∧
    (predictZimbra svc0 [104, 105]).header ≠ ("spam") ∧
    (predictZimbra svc0 [104, 105]).header ≠ ("ham") := by
  have hbody : String.mk (utf8DecodeIgnore [104, 105]) = ("hi") := rfl
  have htok : tokenize ("hi") = [("hi" : String)] := rfl
  have hcnt : List.count ("aa") [("hi" : String)] = 0 := rfl
  have htr : transformOne svc0.vectorizer ("hi") = [0] := by
    unfold transformOne transformTokens svc0
    rw [htok]
    norm_num [List.enum, List.enumFrom, hcnt, List.getD]
  have hd : decisionFn svc0.clf [0] = 0 := by
    norm_num [decisionFn, dotQ, svc0]
  have h1 : predictZimbra svc0 [104, 105] = ⟨"X-Spam-ML-Score: no"⟩ := by
    unfold predictZimbra zimbraRespond predictOne
    rw [hbody, htr, hd]
    norm_num
  refine ⟨by rw [h1], by rw [h1]; decide, by rw [h1]; decide⟩

/-- C1 amended: every response of the `kmkh_1.0.py` endpoint carries a label
that is exactly "spam" or exactly "ham", and the label is "spam" exactly
when the classifier's logistic score on the vectorized text exceeds one
half; the `kmkh_1.1.py` endpoint applies the same 0.5 threshold but answers
the header strings "X-Spam-ML-Score: yes" / "X-Spam-ML-Score: no" instead of
"spam" / "ham". -/
theorem claim_C1_amended (svc : ServiceState) (email : String) (body : List ℕ) :
    ((predictApp svc email).prediction = ("spam") ∨
      (predictApp svc email).prediction = ("ham")) ∧
    ((predictApp svc email).prediction = ("spam") ↔
      (1 : ℝ) / 2 < predictScoreOne svc.clf (transformOne svc.vectorizer email)) ∧
    ((predictZimbra svc body).header = ("X-Spam-ML-Score: yes") ∨
      (predictZimbra svc body).header = ("X-Spam-ML-Score: no")) ∧
    ((predictZimbra svc body).header = ("X-Spam-ML-Score: yes") ↔
      (1 : ℝ) / 2 < predictScoreOne svc.clf
        (transformOne svc.vectorizer (String.mk (utf8DecodeIgnore body)))) := by
  have hne1 : ("ham" : String) ≠ ("spam") := by decide
  have hne2 : ("X-Spam-ML-Score: no" : String) ≠ ("X-Spam-ML-Score: yes") := by decide
  rw [predictScore_gt_half_iff, predictScore_gt_half_iff]
  unfold predictApp predictZimbra zimbraRespond predictOne
  by_cases h : 0 < decisionFn svc.clf (transformOne svc.vectorizer email) <;>
    by_cases h2 : 0 < decisionFn svc.clf
      (transformOne svc.vectorizer (String.mk (utf8DecodeIgnore body))) <;>
    simp [h, h2, hne1, hne2]

/-- C2: the code defines no Uninitialized serving state and no
ModelNotReadyError. Both artifacts are loaded unconditionally at module
import, before any endpoint exists; with an artifact store that lacks the
model file, the import itself fails with the loader's FileNotFoundError — a
process crash — rather than leaving a service that answers predict calls
with a classified not-ready error. -/
theorem claim_C2_missing_artifacts_crash :
    startServing [] = .error (.fileNotFound ("spam_model.pkl")) := rfl

/-- C3: training is deterministic. With the dataset, the seed and the
hyperparameters fixed, two runs under different ambient entropy produce the
identical train/test split and the identical pipeline output — fitted
vocabulary, IDF weights and classifier weights included, as exact
equality. -/
theorem claim_C3_training_deterministic (seed : ℕ) (hp : ClfHyper)
    (texts : List String) (labels : List ℕ) (e1 e2 : ℕ) :
    train_test_split texts labels (some seed) e1 =
      train_test_split texts labels (some seed) e2 ∧
    trainPipeline seed hp texts labels e1 = trainPipeline seed hp texts labels e2 :=
  ⟨rfl, rfl⟩

/-- C4: loading a name right after saving an artifact of either kind under
that name returns exactly the saved artifact. -/
theorem claim_C4_roundtrip (name : String) (a : Artifact) (st : Store) :
    joblibLoad name (joblibDump name a st) = .ok a := by
  simp [joblibLoad, joblibDump, storeLookup]

/-- C5: in every successful pipeline run the fitted vectorizer is exactly
the fit of the train partition, every token of its vocabulary occurs in a
train-partition document (so the test partition never contributes to the
fit), and the test partition is only transformed with that already-fitted
vectorizer. -/
theorem claim_C5_fit_train_only (seed : ℕ) (hp : ClfHyper) (texts : List String)
    (labels : List ℕ) (e : ℕ) (r : TrainResult)
    (h : trainPipeline seed hp texts labels e = .ok r) :
    tfidfFit (train_test_split texts labels (some seed) e).XTrain = .ok r.fv ∧
    (∀ t ∈ r.fv.vocab,
      ∃ d ∈ (train_test_split texts labels (some seed) e).XTrain, t ∈ tokenize d) ∧
    r.XTestT = (train_test_split texts labels (some seed) e).XTest.map (transformOne r.fv) := by
  unfold trainPipeline at h
  split at h
  · simp at h
  · rename_i fv hfit
    split at h
    · simp at h
    · rename_i c hcf
      injection h with h2
      subst h2
      refine ⟨hfit, ?_, rfl⟩
      intro t ht
      have hv : fv.vocab = buildVocab (train_test_split texts labels (some seed) e).XTrain :=
        tfidfFit_ok_vocab hfit
      rw [hv] at ht
      have hj := List.mem_dedup.mp ht
      rcases List.mem_flatten.mp hj with ⟨l, hl, htl⟩
      rcases List.mem_map.mp hl with ⟨d, hd, rfl⟩
      exact ⟨d, hd, htl⟩

/-- Concrete five-row dataset for evaluating the pipeline. -/
def wTexts : List String := ["aa bb", "cc dd", "aa cc", "bb dd", "ee ff"]

/-- Labels of the concrete dataset, containing both classes. -/
def wLabels : List ℕ := [1, 0, 1, 0, 1]

/-- Default-like hyperparameters for the concrete run. -/
def wHp : ClfHyper := ⟨1, 100⟩

/-- Result of the pipeline on the concrete dataset (the error arm is dead:
the run succeeds). -/
def wRes : TrainResult :=
  match trainPipeline 42 wHp wTexts wLabels 0 with
  | .ok r => r
  | .error _ => ⟨⟨[], [], [], []⟩, ⟨[], []⟩, ⟨[], 0⟩, [], [], []⟩

/-- C5 witness: the pipeline run on the concrete five-row dataset succeeds
and the conclusions hold there. -/
theorem claim_C5_fit_train_only_witness :
    tfidfFit (train_test_split wTexts wLabels (some 42) 0).XTrain = .ok wRes.fv ∧
    (∀ t ∈ wRes.fv.vocab,
      ∃ d ∈ (train_test_split wTexts wLabels (some 42) 0).XTrain, t ∈ tokenize d) ∧
    wRes.XTestT = (train_test_split wTexts wLabels (some 42) 0).XTest.map (transformOne wRes.fv) :=
  claim_C5_fit_train_only 42 wHp wTexts wLabels 0 wRes (by rfl)

/-- C6: transform is a total pure function of the read-only fitted state:
its output always has exactly one entry per vocabulary token (the fitted
dimension — the vocabulary never grows), and removing the out-of-vocabulary
tokens from the input changes nothing, i.e. unseen tokens are silently
dropped rather than causing an error. -/
theorem claim_C6_transform_oov (fv : FittedVectorizer) (toks : List String) :
    transformTokens fv (toks.filter (fun s => decide (s ∈ fv.vocab))) =
      transformTokens fv toks ∧
    (transformTokens fv toks).length = fv.vocab.length := by
  constructor
  · unfold transformTokens
    apply List.map_congr_left
    intro p hp
    have hmem : p.2 ∈ fv.vocab :=
      snd_mem_of_mem_enumFrom fv.vocab 0 p (by simpa [List.enum] using hp)
    have hc : ((toks.filter (fun s => decide (s ∈ fv.vocab))).count p.2) = toks.count p.2 :=
      count_filter_of_pos _ p.2 (by simpa using hmem) toks
    rw [hc]
  · simp [transformTokens]

/-- C7: fitting the classifier on a label column holding one single value
fails with the degenerate-dataset error, and fitting the vectorizer on an
empty corpus, or on one yielding no token at all, fails with the
empty-corpus error. -/
theorem claim_C7_degenerate_guards :
    (∀ (hp : ClfHyper) (X : List (List ℚ)) (y : List ℕ) (v : ℕ),
      v ∈ y → (∀ l ∈ y, l = v) → clfFit hp X y = .error .degenerateDataset) ∧
    (∀ docs : List String, (docs = [] ∨ ∀ d ∈ docs, tokenize d = []) →
      tfidfFit docs = .error .emptyCorpus) := by
  constructor
  · intro hp X y v hv hall
    have hd : y.dedup = [v] := dedup_of_all_eq v y hv hall
    simp [clfFit, hd]
  · intro docs hdocs
    have hv : buildVocab docs = [] := by
      rcases hdocs with rfl | hall
      · rfl
      · unfold buildVocab
        have hflat : (docs.map tokenize).flatten = [] := by
          rw [List.flatten_eq_nil_iff]
          intro l hl
          rcases List.mem_map.mp hl with ⟨d, hd, rfl⟩
          exact hall d hd
        rw [hflat, List.dedup_nil]
    simp [tfidfFit, hv]

/-- C7 witness: concrete degenerate inputs hit both guards. -/
theorem claim_C7_degenerate_guards_witness :
    clfFit ⟨1, 100⟩ [[1]] [1, 1] = .error .degenerateDataset ∧
    tfidfFit [] = .error .emptyCorpus :=
  ⟨claim_C7_degenerate_guards.1 ⟨1, 100⟩ [[1]] [1, 1] 1 (by decide) (by decide),
   claim_C7_degenerate_guards.2 [] (Or.inl rfl)⟩

/-- C9 counterexample: the body `[255]` is not text — the byte 255 is valid
in no UTF-8 sequence — yet the `kmkh_1.1.py` endpoint accepts it, silently
drops the undecodable byte and answers a normal prediction response; it
does not fail, and no InvalidInputError (or any classified input failure)
exists anywhere in the code. -/
theorem claim_C9_counterexample :
    predictZimbra svc0 [255] = ⟨"X-Spam-ML-Score: no"⟩ := by
  have hbody : String.mk (utf8DecodeIgnore [255]) = ("") := rfl
  have htok : tokenize ("") = [] := rfl
  have htr : transformOne svc0.vectorizer ("") = [0] := by
    unfold transformOne transformTokens svc0
    rw [htok]
    norm_num [List.enum, List.enumFrom, List.getD]
  have hd : decisionFn svc0.clf [0] = 0 := by
    norm_num [decisionFn, dotQ, svc0]
  unfold predictZimbra zimbraRespond predictOne
  rw [hbody, htr, hd]
  norm_num

/-- C9 amended: the `kmkh_1.1.py` predict endpoint never rejects its input:
every byte sequence — text or not — yields a normal prediction response,
because the body is decoded with the ignore error handler, which silently
drops undecodable bytes (shown here for the byte 255) instead of raising a
classified InvalidInputError; the decoding failure is swallowed rather than
reported. The service does stay ready for subsequent requests. -/
theorem claim_C9_amended (svc : ServiceState) (body : List ℕ) :
    ((predictZimbra svc body).header = ("X-Spam-ML-Score: yes") ∨
      (predictZimbra svc body).header = ("X-Spam-ML-Score: no")) ∧
    predictZimbra svc (255 :: body) = predictZimbra svc body := by
  constructor
  · unfold predictZimbra zimbraRespond
    by_cases h : predictOne svc.clf
        (transformOne svc.vectorizer (String.mk (utf8DecodeIgnore body))) = 1 <;>
      simp [h]
  · unfold predictZimbra
    rw [utf8_drop_255]

set_option maxRecDepth 20000 in
/-- C10: the dataset built at startup has exactly 600 rows, the first 300
labeled 1 (spam) and the last 300 labeled 0 (ham); in particular it is
nonempty and holds at least one example of each class, meeting the
classifier-fit precondition. -/
theorem claim_C10_dataset_shape :
    data_text.length = 600 ∧ data_label.length = 600 ∧
    data_label.take 300 = List.replicate 300 1 ∧
    data_label.drop 300 = List.replicate 300 0 ∧
    1 ∈ data_label ∧ 0 ∈ data_label := by
  refine ⟨by decide, by decide, by decide, by decide, by decide, by decide⟩

end SpamFilter
